import Mathlib

/-!
Verification of the driver-license validation engine of the ride-matching
web application (source: `src/lib/licenseValidation.ts`).

Strings of the source are modelled as `List Char`; JavaScript regular
expressions over ASCII character classes are modelled by executable
segment matchers; timestamps (`Date.getTime()`) are modelled as `Int`
milliseconds since the epoch, with midnight truncation (`setHours(0,0,0,0)`
/ `toISOString().slice(0,10)`) as flooring division by the milliseconds of
one day.  Optional / missing JavaScript values are `Option`.
-/

/-- Character class `[A-Za-z]` (ASCII letters), as used by the source's
regular expressions. -/
def alphaC (c : Char) : Bool :=
  decide ((65 ≤ c.toNat ∧ c.toNat ≤ 90) ∨ (97 ≤ c.toNat ∧ c.toNat ≤ 122))

/-- Character class `\d` / `[0-9]` (ASCII digits). -/
def digitC (c : Char) : Bool :=
  decide (48 ≤ c.toNat ∧ c.toNat ≤ 57)

/-- Character class `[A-Za-z0-9]`. -/
def alnumC (c : Char) : Bool :=
  alphaC c || digitC c

/-- The JavaScript whitespace class `\s` (also the set removed by
`String.prototype.trim`): tab, line feed, vertical tab, form feed,
carriage return, space, NBSP, ogham space mark, the U+2000–U+200A range,
line/paragraph separators, narrow NBSP, medium mathematical space,
ideographic space, and the BOM. -/
def isJsWhitespace (c : Char) : Bool :=
  decide (c.toNat = 9 ∨ c.toNat = 10 ∨ c.toNat = 11 ∨ c.toNat = 12 ∨ c.toNat = 13 ∨
    c.toNat = 32 ∨ c.toNat = 0xA0 ∨ c.toNat = 0x1680 ∨
    (0x2000 ≤ c.toNat ∧ c.toNat ≤ 0x200A) ∨ c.toNat = 0x2028 ∨ c.toNat = 0x2029 ∨
    c.toNat = 0x202F ∨ c.toNat = 0x205F ∨ c.toNat = 0x3000 ∨ c.toNat = 0xFEFF)

/-- `String.prototype.trim`: drop leading and trailing whitespace. -/
def jsTrim (s : List Char) : List Char :=
  ((s.dropWhile isJsWhitespace).reverse.dropWhile isJsWhitespace).reverse

/-- Test of an anchored one-class JavaScript regex `^c+$`: non-empty and
every character in the class. -/
def reAllOf (p : Char → Bool) (s : List Char) : Bool :=
  !s.isEmpty && s.all p

/-- Source `hasValidNameCharacters`: test of `/^[A-Za-z][A-Za-z\s'-]*$/`
(first character a letter, the rest letters, whitespace, apostrophe or
hyphen). -/
def hasValidNameCharacters (s : List Char) : Bool :=
  match s with
  | [] => false
  | c :: rest =>
      alphaC c && rest.all (fun x => alphaC x || isJsWhitespace x || x == Char.ofNat 39 || x == '-')

/-- Source `hasAnyLetter`: test of the unanchored `/[A-Za-z]/`. -/
def hasAnyLetter (s : List Char) : Bool :=
  s.any alphaC

/-- Source `isAllSameCharacter`: upper-case the value and check that every
character equals the first (`every` is vacuously true on the empty
string). -/
def isAllSameCharacter (value : List Char) : Bool :=
  let normalized := value.map Char.toUpper
  match normalized with
  | [] => true
  | c0 :: _ => normalized.all (fun c => c == c0)

/-- JavaScript `Number(char)` for a single-character string: an ASCII digit
converts to its value, a whitespace-only string converts to `0`, everything
else is `NaN` (modelled as `none`). -/
def jsCharToNumber (c : Char) : Option Int :=
  if digitC c then some ((c.toNat : Int) - 48)
  else if isJsWhitespace c then some 0
  else none

/-- Every consecutive pair increases by exactly one
(`num === digits[index-1] + 1` at every index past the first). -/
def chainAsc : List Int → Bool
  | [] => true
  | [_] => true
  | a :: b :: rest => (b == a + 1) && chainAsc (b :: rest)

/-- Every consecutive pair decreases by exactly one. -/
def chainDesc : List Int → Bool
  | [] => true
  | [_] => true
  | a :: b :: rest => (b == a - 1) && chainDesc (b :: rest)

/-- Turn a list of optional values into an optional list (`none` as soon as
one entry is `none`). -/
def allSome : List (Option Int) → Option (List Int)
  | [] => some []
  | none :: _ => none
  | some a :: rest => (allSome rest).map (a :: ·)

/-- Source `isSequentialDigits`: map every character through `Number`; if
any is `NaN` return false, otherwise accept strictly ascending or strictly
descending consecutive runs. -/
def isSequentialDigits (value : List Char) : Bool :=
  match allSome (value.map jsCharToNumber) with
  | none => false
  | some digits => chainAsc digits || chainDesc digits

/-- Source `isSequentialLetters`: upper-case, take the character codes, and
accept strictly ascending or strictly descending consecutive runs. -/
def isSequentialLetters (value : List Char) : Bool :=
  let letters := (value.map Char.toUpper).map (fun c => (c.toNat : Int))
  chainAsc letters || chainDesc letters

/-- Source `validateLegalName`. -/
def validateLegalName (value : Option (List Char)) : Option String :=
  let trimmed := jsTrim (value.getD [])
  if trimmed.isEmpty then some "Legal name is required for driver registration"
  else if trimmed.length < 2 then some "Legal name must be at least 2 characters long"
  else if !hasValidNameCharacters trimmed then
    some "Legal name can only include letters, spaces, hyphens, and apostrophes"
  else if !hasAnyLetter trimmed then
    some "Legal name must include at least one letter"
  else none

/-- Milliseconds of one day, `1000 * 60 * 60 * 24`. -/
def msPerDay : Int := 1000 * 60 * 60 * 24

/-- Truncation of a timestamp to the midnight that starts its day
(`setHours(0, 0, 0, 0)` and likewise re-parsing
`toISOString().slice(0, 10)`), modelled as flooring to a multiple of
`msPerDay`; for a positive divisor `Int` division rounds toward negative
infinity, matching the truncation. -/
def truncToMidnight (ms : Int) : Int :=
  msPerDay * (ms / msPerDay)

/-- JavaScript `Math.ceil(a / b)` for integer `a` and positive integer
`b`. -/
def jsMathCeilDiv (a b : Int) : Int :=
  -((-a) / b)

/-- One repetition group of an anchored JavaScript regex: a character class
repeated between `lo` and `hi` times (`none` for an unbounded `+`). -/
structure Seg where
  cls : Char → Bool
  lo : Nat
  hi : Option Nat

/-- Upper repetition bound check for a segment. -/
def segHiOk (hi : Option Nat) (n : Nat) : Bool :=
  match hi with
  | none => true
  | some h => decide (n ≤ h)

/-- Full-string match of a sequence of repetition groups: the string splits
into consecutive blocks, one per group, each block's length within the
group's bounds and each of its characters in the group's class. -/
def matchSegs : List Seg → List Char → Bool
  | [], s => s.isEmpty
  | sg :: rest, s =>
      (List.range (s.length + 1)).any fun n =>
        decide (sg.lo ≤ n) && segHiOk sg.hi n && (s.take n).all sg.cls &&
          matchSegs rest (s.drop n)

/-- An anchored JavaScript regex of the shapes used by the rule table: an
optional exact-length lookahead `(?=.{n}$)` (with `.` excluding line
terminators) followed by repetition groups. -/
structure JsRegex where
  exactLen : Option Nat
  segs : List Seg

/-- The regex `.` class: every character except the line terminators. -/
def dotC (c : Char) : Bool :=
  !(c == '\n' || c == '\r' || c == Char.ofNat 0x2028 || c == Char.ofNat 0x2029)

/-- `regex.test(s)` for an anchored regex of the supported shape. -/
def regexTest (r : JsRegex) (s : List Char) : Bool :=
  (match r.exactLen with
   | none => true
   | some n => decide (s.length = n) && s.all dotC) && matchSegs r.segs s

/-- Segment with a repetition range `{lo,hi}`. -/
def segN (p : Char → Bool) (lo hi : Nat) : Seg := ⟨p, lo, some hi⟩

/-- Segment with an exact repetition count `{n}`. -/
def segX (p : Char → Bool) (n : Nat) : Seg := ⟨p, n, some n⟩

/-- Segment for an unbounded `+` repetition. -/
def segPlus (p : Char → Bool) : Seg := ⟨p, 1, none⟩

/-- Plain anchored regex without a lookahead. -/
def reg (segs : List Seg) : JsRegex := ⟨none, segs⟩

/-- The literal character `A` (Vermont's `\d{7}A` pattern). -/
def litA (c : Char) : Bool := c == 'A'

/-- The literal character `R` (Missouri's `[A-Za-z]\d{6}R` pattern). -/
def litR (c : Char) : Bool := c == 'R'

/-- The class `[Xx]` (Nevada's `X + 8 Numeric` pattern). -/
def clsXx (c : Char) : Bool := c == 'X' || c == 'x'

/-- Source `LicensePattern`: regex, human-readable description, and length
bounds (the bounds feed only a commented-out fast-path length check). -/
structure LicensePattern where
  regex : JsRegex
  description : String
  minLength : Nat
  maxLength : Nat

/-- Source `LicenseFormatRule`. -/
structure LicenseFormatRule where
  patterns : List LicensePattern

/-- Shorthand constructor for a `LicensePattern`. -/
def pat (r : JsRegex) (d : String) (lo hi : Nat) : LicensePattern := ⟨r, d, lo, hi⟩

/-- Source `USStateCode`: the keys of `US_STATE_RULES` (50 states plus
DC). -/
inductive USStateCode where
  | AL | AK | AZ | AR | CA | CO | CT | DE | DC | FL
  | GA | HI | ID | IL | IN | IA | KS | KY | LA | ME
  | MD | MA | MI | MN | MS | MO | MT | NE | NV | NH
  | NJ | NM | NY | NC | ND | OH | OK | OR | PA | RI
  | SC | SD | TN | TX | UT | VT | VA | WA | WV | WI
  | WY
deriving DecidableEq

/-- Source `US_STATE_RULES`: state-by-state license number rules (multiple
patterns per state), translated pattern for pattern from the table. -/
def US_STATE_RULES : USStateCode → LicenseFormatRule
  | .AL => ⟨[pat (reg [segN digitC 1 8]) "1-8 Numeric" 1 8]⟩
  | .AK => ⟨[pat (reg [segN digitC 1 7]) "1-7 Numeric" 1 7]⟩
  | .AZ => ⟨[pat (reg [segX alphaC 1, segX digitC 8]) "1 Alpha + 8 Numeric" 9 9,
             pat (reg [segX digitC 9]) "9 Numeric" 9 9]⟩
  | .AR => ⟨[pat (reg [segN digitC 4 9]) "4-9 Numeric" 4 9]⟩
  | .CA => ⟨[pat (reg [segX alphaC 1, segX digitC 7]) "1 Alpha + 7 Numeric" 8 8]⟩
  | .CO => ⟨[pat (reg [segX digitC 9]) "9 Numeric" 9 9,
             pat (reg [segX alphaC 1, segN digitC 3 6]) "1 Alpha + 3-6 Numeric" 4 7,
             pat (reg [segX alphaC 2, segN digitC 2 5]) "2 Alpha + 2-5 Numeric" 4 7]⟩
  | .CT => ⟨[pat (reg [segX digitC 9]) "9 Numeric" 9 9]⟩
  | .DE => ⟨[pat (reg [segN digitC 1 7]) "1-7 Numeric" 1 7]⟩
  | .DC => ⟨[pat (reg [segX digitC 7]) "7 Numeric" 7 7,
             pat (reg [segX digitC 9]) "9 Numeric" 9 9]⟩
  | .FL => ⟨[pat (reg [segX alphaC 1, segX digitC 12]) "1 Alpha + 12 Numeric" 13 13]⟩
  | .GA => ⟨[pat (reg [segN digitC 7 9]) "7-9 Numeric" 7 9]⟩
  | .HI => ⟨[pat (reg [segX alphaC 1, segX digitC 8]) "1 Alpha + 8 Numeric" 9 9,
             pat (reg [segX digitC 9]) "9 Numeric" 9 9]⟩
  | .ID => ⟨[pat (reg [segX alphaC 2, segX digitC 6, segX alphaC 1])
               "2 Alpha + 6 Numeric + 1 Alpha" 9 9,
             pat (reg [segX digitC 9]) "9 Numeric" 9 9]⟩
  | .IL => ⟨[pat (reg [segX alphaC 1, segN digitC 11 12]) "1 Alpha + 11-12 Numeric" 12 13]⟩
  | .IN => ⟨[pat (reg [segX alphaC 1, segX digitC 9]) "1 Alpha + 9 Numeric" 10 10,
             pat (reg [segN digitC 9 10]) "9-10 Numeric" 9 10]⟩
  | .IA => ⟨[pat (reg [segX digitC 9]) "9 Numeric" 9 9,
             pat (reg [segX digitC 3, segX alphaC 2, segX digitC 4])
               "3 Numeric + 2 Alpha + 4 Numeric" 9 9]⟩
  | .KS => ⟨[pat (reg [segX alphaC 1, segX digitC 1, segX alphaC 1, segX digitC 1, segX alphaC 1])
               "1 Alpha + 1 Numeric + 1 Alpha + 1 Numeric + 1 Alpha" 5 5,
             pat (reg [segX alphaC 1, segX digitC 8]) "1 Alpha + 8 Numeric" 9 9,
             pat (reg [segX digitC 9]) "9 Numeric" 9 9]⟩
  | .KY => ⟨[pat (reg [segX alphaC 1, segX digitC 8]) "1 Alpha + 8 Numeric" 9 9,
             pat (reg [segX alphaC 1, segX digitC 9]) "1 Alpha + 9 Numeric" 10 10,
             pat (reg [segX digitC 9]) "9 Numeric" 9 9]⟩
  | .LA => ⟨[pat (reg [segN digitC 1 9]) "1-9 Numeric" 1 9]⟩
  | .ME => ⟨[pat (reg [segX digitC 7]) "7 Numeric" 7 7,
             pat (reg [segX digitC 7, segX alphaC 1]) "7 Numeric + 1 Alpha" 8 8,
             pat (reg [segX digitC 8]) "8 Numeric" 8 8]⟩
  | .MD => ⟨[pat (reg [segX alphaC 1, segX digitC 12]) "1 Alpha + 12 Numeric" 13 13]⟩
  | .MA => ⟨[pat (reg [segX alphaC 1, segX digitC 8]) "1 Alpha + 8 Numeric" 9 9,
             pat (reg [segX digitC 9]) "9 Numeric" 9 9]⟩
  | .MI => ⟨[pat (reg [segX alphaC 1, segX digitC 10]) "1 Alpha + 10 Numeric" 11 11,
             pat (reg [segX alphaC 1, segX digitC 12]) "1 Alpha + 12 Numeric" 13 13]⟩
  | .MN => ⟨[pat (reg [segX alphaC 1, segX digitC 12]) "1 Alpha + 12 Numeric" 13 13]⟩
  | .MS => ⟨[pat (reg [segX digitC 9]) "9 Numeric" 9 9]⟩
  | .MO => ⟨[pat (reg [segX digitC 3, segX alphaC 1, segX digitC 6])
               "3 Numeric + 1 Alpha + 6 Numeric" 10 10,
             pat (reg [segX alphaC 1, segN digitC 5 9]) "1 Alpha + 5-9 Numeric" 6 10,
             pat (reg [segX alphaC 1, segX digitC 6, segX litR 1]) "1 Alpha + 6 Numeric + R" 8 8,
             pat (reg [segX digitC 8, segX alphaC 2]) "8 Numeric + 2 Alpha" 10 10,
             pat (reg [segX digitC 9, segX alphaC 1]) "9 Numeric + 1 Alpha" 10 10,
             pat (reg [segX digitC 9]) "9 Numeric" 9 9]⟩
  | .MT => ⟨[pat (reg [segX alphaC 3, segX digitC 10]) "3 Alpha + 10 Numeric" 13 13,
             pat (reg [segX alphaC 1, segX digitC 8]) "1 Alpha + 8 Numeric" 9 9,
             pat (reg [segX digitC 9]) "9 Numeric" 9 9,
             pat (reg [segN digitC 13 14]) "13-14 Numeric" 13 14]⟩
  | .NE => ⟨[pat (reg [segX alphaC 1, segN digitC 6 8]) "1 Alpha + 6-8 Numeric" 7 9]⟩
  | .NV => ⟨[pat (reg [segN digitC 9 10]) "9-10 Numeric" 9 10,
             pat (reg [segX digitC 12]) "12 Numeric" 12 12,
             pat (reg [segX clsXx 1, segX digitC 8]) "X + 8 Numeric" 9 9]⟩
  | .NH => ⟨[pat (reg [segX digitC 2, segX alphaC 3, segX digitC 5])
               "2 Numeric + 3 Alpha + 5 Numeric" 10 10]⟩
  | .NJ => ⟨[pat (reg [segX alphaC 1, segX digitC 14]) "1 Alpha + 14 Numeric" 15 15]⟩
  | .NM => ⟨[pat (reg [segN digitC 8 9]) "8-9 Numeric" 8 9]⟩
  | .NY => ⟨[pat (reg [segX alphaC 1, segX digitC 7]) "1 Alpha + 7 Numeric" 8 8,
             pat (reg [segX alphaC 1, segX digitC 18]) "1 Alpha + 18 Numeric" 19 19,
             pat (reg [segN digitC 8 9]) "8-9 Numeric" 8 9,
             pat (reg [segX digitC 16]) "16 Numeric" 16 16,
             pat (reg [segX alphaC 8]) "8 Alpha" 8 8]⟩
  | .NC => ⟨[pat (reg [segN digitC 1 12]) "1-12 Numeric" 1 12]⟩
  | .ND => ⟨[pat (reg [segX alphaC 3, segX digitC 6]) "3 Alpha + 6 Numeric" 9 9,
             pat (reg [segX digitC 9]) "9 Numeric" 9 9]⟩
  | .OH => ⟨[pat (reg [segX alphaC 1, segN digitC 4 8]) "1 Alpha + 4-8 Numeric" 5 9,
             pat (reg [segX alphaC 2, segN digitC 3 7]) "2 Alpha + 3-7 Numeric" 5 9,
             pat (reg [segX digitC 8]) "8 Numeric" 8 8]⟩
  | .OK => ⟨[pat (reg [segX alphaC 1, segX digitC 9]) "1 Alpha + 9 Numeric" 10 10,
             pat (reg [segX digitC 9]) "9 Numeric" 9 9]⟩
  | .OR => ⟨[pat (reg [segN digitC 1 9]) "1-9 Numeric" 1 9]⟩
  | .PA => ⟨[pat (reg [segX digitC 8]) "8 Numeric" 8 8]⟩
  | .RI => ⟨[pat (reg [segX digitC 7]) "7 Numeric" 7 7,
             pat (reg [segX alphaC 1, segX digitC 6]) "1 Alpha + 6 Numeric" 7 7]⟩
  | .SC => ⟨[pat (reg [segN digitC 5 11]) "5-11 Numeric" 5 11]⟩
  | .SD => ⟨[pat (reg [segN digitC 6 10]) "6-10 Numeric" 6 10,
             pat (reg [segX digitC 12]) "12 Numeric" 12 12]⟩
  | .TN => ⟨[pat (reg [segN digitC 7 9]) "7-9 Numeric" 7 9]⟩
  | .TX => ⟨[pat (reg [segN digitC 7 8]) "7-8 Numeric" 7 8]⟩
  | .UT => ⟨[pat (reg [segN digitC 4 10]) "4-10 Numeric" 4 10]⟩
  | .VT => ⟨[pat (reg [segX digitC 8]) "8 Numeric" 8 8,
             pat (reg [segX digitC 7, segX litA 1]) "7 Numeric + A" 8 8]⟩
  | .VA => ⟨[pat (reg [segX alphaC 1, segN digitC 8 11]) "1 Alpha + 8-11 Numeric" 9 12,
             pat (reg [segX digitC 9]) "9 Numeric" 9 9]⟩
  | .WA => ⟨[pat ⟨some 12, [segN alphaC 1 7, segPlus alnumC]⟩
               "1-7 Alpha + any combination of Alpha/Numeric (total 12)" 12 12]⟩
  | .WV => ⟨[pat (reg [segX digitC 7]) "7 Numeric" 7 7,
             pat (reg [segN alphaC 1 2, segN digitC 5 6]) "1-2 Alpha + 5-6 Numeric" 6 8]⟩
  | .WI => ⟨[pat (reg [segX alphaC 1, segX digitC 13]) "1 Alpha + 13 Numeric" 14 14]⟩
  | .WY => ⟨[pat (reg [segN digitC 9 10]) "9-10 Numeric" 9 10]⟩

/-- The key string of each entry of the source's `US_STATE_RULES` object. -/
def stateKey : USStateCode → String
  | .AL => "AL" | .AK => "AK" | .AZ => "AZ" | .AR => "AR" | .CA => "CA"
  | .CO => "CO" | .CT => "CT" | .DE => "DE" | .DC => "DC" | .FL => "FL"
  | .GA => "GA" | .HI => "HI" | .ID => "ID" | .IL => "IL" | .IN => "IN"
  | .IA => "IA" | .KS => "KS" | .KY => "KY" | .LA => "LA" | .ME => "ME"
  | .MD => "MD" | .MA => "MA" | .MI => "MI" | .MN => "MN" | .MS => "MS"
  | .MO => "MO" | .MT => "MT" | .NE => "NE" | .NV => "NV" | .NH => "NH"
  | .NJ => "NJ" | .NM => "NM" | .NY => "NY" | .NC => "NC" | .ND => "ND"
  | .OH => "OH" | .OK => "OK" | .OR => "OR" | .PA => "PA" | .RI => "RI"
  | .SC => "SC" | .SD => "SD" | .TN => "TN" | .TX => "TX" | .UT => "UT"
  | .VT => "VT" | .VA => "VA" | .WA => "WA" | .WV => "WV" | .WI => "WI"
  | .WY => "WY"

/-- The `Object.prototype.hasOwnProperty` membership test on
`US_STATE_RULES`: which strings are keys of the table. -/
def parseStateCode : String → Option USStateCode
  | "AL" => some .AL | "AK" => some .AK | "AZ" => some .AZ | "AR" => some .AR
  | "CA" => some .CA | "CO" => some .CO | "CT" => some .CT | "DE" => some .DE
  | "DC" => some .DC | "FL" => some .FL | "GA" => some .GA | "HI" => some .HI
  | "ID" => some .ID | "IL" => some .IL | "IN" => some .IN | "IA" => some .IA
  | "KS" => some .KS | "KY" => some .KY | "LA" => some .LA | "ME" => some .ME
  | "MD" => some .MD | "MA" => some .MA | "MI" => some .MI | "MN" => some .MN
  | "MS" => some .MS | "MO" => some .MO | "MT" => some .MT | "NE" => some .NE
  | "NV" => some .NV | "NH" => some .NH | "NJ" => some .NJ | "NM" => some .NM
  | "NY" => some .NY | "NC" => some .NC | "ND" => some .ND | "OH" => some .OH
  | "OK" => some .OK | "OR" => some .OR | "PA" => some .PA | "RI" => some .RI
  | "SC" => some .SC | "SD" => some .SD | "TN" => some .TN | "TX" => some .TX
  | "UT" => some .UT | "VT" => some .VT | "VA" => some .VA | "WA" => some .WA
  | "WV" => some .WV | "WI" => some .WI | "WY" => some .WY
  | _ => none

/-- Source `isValidIssuingState`: falsy values (missing or empty string)
are rejected, otherwise the value must be a key of `US_STATE_RULES`. -/
def isValidIssuingState (value : Option String) : Bool :=
  match value with
  | none => false
  | some v => if v = "" then false else (parseStateCode v).isSome

/-- Source `validateIssuingState`. -/
def validateIssuingState (value : Option String) : Option String :=
  match value with
  | none => some "Issuing state is required for driver registration"
  | some v =>
    if v = "" then some "Issuing state is required for driver registration"
    else if !isValidIssuingState (some v) then
      some "Issuing state must be a valid U.S. state or DC"
    else none

/-- The format check of `validateLicenseNumber`:
`rule.patterns.some((pattern) => pattern.regex.test(trimmed))`. -/
def licenseFormatOk (rule : LicenseFormatRule) (s : List Char) : Bool :=
  rule.patterns.any fun p => regexTest p.regex s

/-- Source `validateLicenseNumber` (the commented-out length fast path of
the source is omitted, and the unused `expected` description string is not
materialized). -/
def validateLicenseNumber (value : Option (List Char)) (issuingState : Option USStateCode) :
    Option String :=
  let trimmed := jsTrim (value.getD [])
  if trimmed.isEmpty then some "License number is required for driver registration"
  else
    match issuingState with
    | none => some "Issuing state is required to validate license number"
    | some st =>
      let rule := US_STATE_RULES st
      if trimmed.any isJsWhitespace then some "License number must not include whitespace"
      else if !reAllOf alnumC trimmed then some "License number must not include special characters"
      else if !licenseFormatOk rule trimmed then
        some ("License number does not match the required format for " ++ stateKey st)
      else if isAllSameCharacter trimmed then some "License number cannot be a repeated sequence"
      else if (reAllOf digitC trimmed && isSequentialDigits trimmed) ||
          (reAllOf alphaC trimmed && isSequentialLetters trimmed) then
        some "License number cannot be an obvious sequence"
      else none

/-- Source `normalizeExpirationDate`: a missing or unparsable date gives
`undefined`, otherwise the date is reduced to its calendar day
(`toISOString().slice(0, 10)`).  The JavaScript `Date` parser itself is not
modelled: the argument carries the parse outcome, `none` for a missing
value or a `NaN` parse and `some ms` for a successful parse. -/
def normalizeExpirationDate (value : Option Int) : Option Int :=
  match value with
  | none => none
  | some ms => some (truncToMidnight ms)

/-- Source `validateLicenseExpirationDate`: normalize, truncate today and
the expiration to midnight, and require
`Math.ceil((expiration - today) / msPerDay) >= 7`. -/
def validateLicenseExpirationDate (value : Option Int) (nowMs : Int) : Option String :=
  match normalizeExpirationDate value with
  | none => some "License expiration date is required"
  | some normMs =>
    let today := truncToMidnight nowMs
    let expiration := truncToMidnight normMs
    let daysUntilExpiration := jsMathCeilDiv (expiration - today) msPerDay
    if daysUntilExpiration < 7 then
      some "License expiration date must be at least 7 days in the future"
    else none

/-- Source `DriverLicenseInput`.  The expiration field carries the outcome
of parsing the caller's date string (`none` for a missing value or a `NaN`
parse, `some ms` for the parsed timestamp). -/
structure DriverLicenseInput where
  legalName : Option (List Char)
  licenseNumber : Option (List Char)
  licenseExpirationDate : Option Int
  issuingState : Option String

/-- The four keys of the source's `DriverLicenseValidationErrors` record. -/
inductive ErrField where
  | legalName | issuingState | licenseNumber | licenseExpirationDate
deriving DecidableEq

/-- Lookup of a field's message in an error mapping. -/
def findError : List (ErrField × String) → ErrField → Option String
  | [], _ => none
  | (k, m) :: rest, f => if k = f then some m else findError rest f

/-- Source `validateDriverLicenseInput`: run the four field validators
independently and collect a field-to-message mapping of the failures, in
the source's insertion order. -/
def validateDriverLicenseInput (input : DriverLicenseInput) (nowMs : Int) :
    List (ErrField × String) :=
  (match validateLegalName input.legalName with
   | some m => [(ErrField.legalName, m)]
   | none => []) ++
  (match validateIssuingState input.issuingState with
   | some m => [(ErrField.issuingState, m)]
   | none => []) ++
  (match validateLicenseNumber input.licenseNumber
      (if isValidIssuingState input.issuingState then input.issuingState.bind parseStateCode
       else none) with
   | some m => [(ErrField.licenseNumber, m)]
   | none => []) ++
  (match validateLicenseExpirationDate input.licenseExpirationDate nowMs with
   | some m => [(ErrField.licenseExpirationDate, m)]
   | none => [])

/-! ## Helper lemmas -/

/-- Transfer of a truth-value equivalence to a `Bool` equality. -/
theorem bool_eq_of_iff {a b : Bool} (h : a = true ↔ b = true) : a = b := by
  cases a <;> cases b <;> simp_all

/-- A final segment with bounded repetition matches exactly the strings
whose length is within the bounds and whose characters are all in the
class. -/
theorem matchSegs_last_iff (p : Char → Bool) (lo hi : Nat) (s : List Char) :
    matchSegs [⟨p, lo, some hi⟩] s = true ↔
      lo ≤ s.length ∧ s.length ≤ hi ∧ s.all p = true := by
  simp only [matchSegs, List.any_eq_true, List.mem_range, segHiOk, Bool.and_eq_true,
    decide_eq_true_eq, List.isEmpty_iff]
  constructor
  · rintro ⟨n, hn, ⟨⟨⟨h1, h2⟩, h3⟩, h4⟩⟩
    have hlen : s.length - n = 0 := by
      simpa using congrArg List.length h4
    have hEq : n = s.length := by omega
    subst hEq
    rw [List.take_length] at h3
    exact ⟨h1, h2, h3⟩
  · rintro ⟨h1, h2, h3⟩
    refine ⟨s.length, by omega, ⟨⟨⟨h1, h2⟩, ?_⟩, ?_⟩⟩
    · rw [List.take_length]; exact h3
    · simp

/-- A leading segment with an exact repetition count consumes exactly that
many characters. -/
theorem matchSegs_cons_exact_iff (p : Char → Bool) (k : Nat) (rest : List Seg)
    (s : List Char) :
    matchSegs (⟨p, k, some k⟩ :: rest) s = true ↔
      k ≤ s.length ∧ (s.take k).all p = true ∧ matchSegs rest (s.drop k) = true := by
  simp only [matchSegs, List.any_eq_true, List.mem_range, segHiOk, Bool.and_eq_true,
    decide_eq_true_eq]
  constructor
  · rintro ⟨n, hn, ⟨⟨⟨h1, h2⟩, h3⟩, h4⟩⟩
    have hEq : n = k := by omega
    subst hEq
    exact ⟨by omega, h3, h4⟩
  · rintro ⟨h1, h2, h3⟩
    exact ⟨k, by omega, ⟨⟨⟨le_refl _, le_refl _⟩, h2⟩, h3⟩⟩

/-! ## Spec-side format shapes (C2) -/

/-- Spec shape for California: exactly 1 letter followed by 7 digits
(8 characters total). -/
def spec_CA_shape (s : List Char) : Bool :=
  match s with
  | [] => false
  | c :: t => alphaC c && decide (t.length = 7) && t.all digitC

/-- Spec shape for Colorado: 9 digits, or 1 letter plus 3-6 digits, or
2 letters plus 2-5 digits. -/
def spec_CO_shape (s : List Char) : Bool :=
  (decide (s.length = 9) && s.all digitC) ||
  (match s with
   | c :: t => alphaC c && decide (3 ≤ t.length) && decide (t.length ≤ 6) && t.all digitC
   | [] => false) ||
  (match s with
   | c1 :: c2 :: t =>
       alphaC c1 && alphaC c2 && decide (2 ≤ t.length) && decide (t.length ≤ 5) && t.all digitC
   | _ => false)

/-- Spec shape for Oregon: 1-9 digits only. -/
def spec_OR_shape (s : List Char) : Bool :=
  decide (1 ≤ s.length) && decide (s.length ≤ 9) && s.all digitC

/-- The California rule accepts exactly the spec shape. -/
theorem licenseFormatOk_CA (s : List Char) :
    licenseFormatOk (US_STATE_RULES .CA) s = spec_CA_shape s := by
  apply bool_eq_of_iff
  rw [show licenseFormatOk (US_STATE_RULES .CA) s
        = matchSegs [⟨alphaC, 1, some 1⟩, ⟨digitC, 7, some 7⟩] s by
      simp [licenseFormatOk, US_STATE_RULES, regexTest, reg, pat, segX]]
  rw [matchSegs_cons_exact_iff]
  cases s with
  | nil => simp [spec_CA_shape]
  | cons c t =>
      rw [show List.take 1 (c :: t) = [c] from rfl, show List.drop 1 (c :: t) = t from rfl,
        matchSegs_last_iff]
      simp only [spec_CA_shape, List.length_cons, List.all_cons, List.all_nil, Bool.and_true,
        Bool.and_eq_true, decide_eq_true_eq]
      constructor
      · rintro ⟨-, h2, h3, h4, h5⟩
        exact ⟨⟨h2, by omega⟩, h5⟩
      · rintro ⟨⟨h1, h2⟩, h3⟩
        exact ⟨by omega, h1, by omega, by omega, h3⟩

/-- Characterization of a pure fixed-length digit pattern. -/
theorem matchSegs_digits_iff (n : Nat) (s : List Char) :
    matchSegs [⟨digitC, n, some n⟩] s = true ↔ s.length = n ∧ s.all digitC = true := by
  rw [matchSegs_last_iff]
  constructor
  · rintro ⟨h1, h2, h3⟩; exact ⟨by omega, h3⟩
  · rintro ⟨h1, h2⟩; exact ⟨by omega, by omega, h2⟩

/-- Characterization of a `1 Alpha + lo-hi Numeric` pattern. -/
theorem matchSegs_alpha1_iff (lo hi : Nat) (s : List Char) :
    matchSegs [⟨alphaC, 1, some 1⟩, ⟨digitC, lo, some hi⟩] s = true ↔
      ∃ c t, s = c :: t ∧ alphaC c = true ∧ lo ≤ t.length ∧ t.length ≤ hi ∧
        t.all digitC = true := by
  cases s with
  | nil => rw [matchSegs_cons_exact_iff]; simp
  | cons c t =>
      rw [matchSegs_cons_exact_iff, show List.take 1 (c :: t) = [c] from rfl,
        show List.drop 1 (c :: t) = t from rfl, matchSegs_last_iff]
      simp only [List.all_cons, List.all_nil, Bool.and_true, List.length_cons,
        List.cons.injEq]
      constructor
      · rintro ⟨-, h2, h3, h4, h5⟩
        exact ⟨c, t, ⟨rfl, rfl⟩, h2, h3, h4, h5⟩
      · rintro ⟨c', t', ⟨rfl, rfl⟩, h2, h3, h4, h5⟩
        exact ⟨by omega, h2, h3, h4, h5⟩

/-- Characterization of a `2 Alpha + lo-hi Numeric` pattern. -/
theorem matchSegs_alpha2_iff (lo hi : Nat) (s : List Char) :
    matchSegs [⟨alphaC, 2, some 2⟩, ⟨digitC, lo, some hi⟩] s = true ↔
      ∃ c1 c2 t, s = c1 :: c2 :: t ∧ alphaC c1 = true ∧ alphaC c2 = true ∧
        lo ≤ t.length ∧ t.length ≤ hi ∧ t.all digitC = true := by
  rcases s with _ | ⟨c1, _ | ⟨c2, t⟩⟩
  · rw [matchSegs_cons_exact_iff]; simp
  · rw [matchSegs_cons_exact_iff]; simp
  · rw [matchSegs_cons_exact_iff, show List.take 2 (c1 :: c2 :: t) = [c1, c2] from rfl,
      show List.drop 2 (c1 :: c2 :: t) = t from rfl, matchSegs_last_iff]
    simp only [List.all_cons, List.all_nil, Bool.and_true, Bool.and_eq_true,
      List.length_cons, List.cons.injEq]
    constructor
    · rintro ⟨-, ⟨h2, h3⟩, h4, h5, h6⟩
      exact ⟨c1, c2, t, ⟨rfl, rfl, rfl⟩, h2, h3, h4, h5, h6⟩
    · rintro ⟨c1', c2', t', ⟨rfl, rfl, rfl⟩, h2, h3, h4, h5, h6⟩
      exact ⟨by omega, ⟨h2, h3⟩, h4, h5, h6⟩

/-- The Colorado rule accepts exactly the spec shape. -/
theorem licenseFormatOk_CO (s : List Char) :
    licenseFormatOk (US_STATE_RULES .CO) s = spec_CO_shape s := by
  apply bool_eq_of_iff
  rw [show licenseFormatOk (US_STATE_RULES .CO) s
        = (matchSegs [⟨digitC, 9, some 9⟩] s
            || matchSegs [⟨alphaC, 1, some 1⟩, ⟨digitC, 3, some 6⟩] s
            || matchSegs [⟨alphaC, 2, some 2⟩, ⟨digitC, 2, some 5⟩] s) by
      simp [licenseFormatOk, US_STATE_RULES, regexTest, reg, pat, segX, segN, Bool.or_assoc]]
  simp only [Bool.or_eq_true]
  rcases s with _ | ⟨c1, _ | ⟨c2, t⟩⟩
  · simp [matchSegs_digits_iff, matchSegs_cons_exact_iff, matchSegs_last_iff, spec_CO_shape]
  · simp [matchSegs_digits_iff, matchSegs_cons_exact_iff, matchSegs_last_iff, spec_CO_shape]
  · rw [matchSegs_digits_iff,
      matchSegs_cons_exact_iff, show List.take 1 (c1 :: c2 :: t) = [c1] from rfl,
      show List.drop 1 (c1 :: c2 :: t) = c2 :: t from rfl, matchSegs_last_iff,
      matchSegs_cons_exact_iff, show List.take 2 (c1 :: c2 :: t) = [c1, c2] from rfl,
      show List.drop 2 (c1 :: c2 :: t) = t from rfl, matchSegs_last_iff]
    simp [spec_CO_shape]
    tauto

/-- The Oregon rule accepts exactly the spec shape. -/
theorem licenseFormatOk_OR (s : List Char) :
    licenseFormatOk (US_STATE_RULES .OR) s = spec_OR_shape s := by
  apply bool_eq_of_iff
  rw [show licenseFormatOk (US_STATE_RULES .OR) s = matchSegs [⟨digitC, 1, some 9⟩] s by
      simp [licenseFormatOk, US_STATE_RULES, regexTest, reg, pat, segN]]
  rw [matchSegs_last_iff]
  simp [spec_OR_shape, and_assoc]

/-- Claim C2: the jurisdiction rule table accepts a candidate for a
jurisdiction exactly when the whole string matches at least one of its
patterns, and the table encodes the spec's example shapes exactly:
California is precisely 1 letter plus 7 digits, Colorado precisely 9
digits or 1 letter plus 3-6 digits or 2 letters plus 2-5 digits, and
Oregon precisely 1-9 digits. -/
theorem claim_c2 : ∀ s : List Char,
    (∀ st : USStateCode, licenseFormatOk (US_STATE_RULES st) s
      = (US_STATE_RULES st).patterns.any (fun p => regexTest p.regex s))
    ∧ licenseFormatOk (US_STATE_RULES .CA) s = spec_CA_shape s
    ∧ licenseFormatOk (US_STATE_RULES .CO) s = spec_CO_shape s
    ∧ licenseFormatOk (US_STATE_RULES .OR) s = spec_OR_shape s := fun s =>
  ⟨fun _ => rfl, licenseFormatOk_CA s, licenseFormatOk_CO s, licenseFormatOk_OR s⟩

/-- On a midnight-truncated base date, shifting by `k` whole days passes
the expiration check exactly when `k ≥ 7`. -/
theorem validateLicenseExpirationDate_offset (nowMs k : Int) :
    validateLicenseExpirationDate (some (truncToMidnight nowMs + k * msPerDay)) nowMs =
      if k < 7 then some "License expiration date must be at least 7 days in the future"
      else none := by
  have hd : msPerDay = 86400000 := rfl
  simp only [validateLicenseExpirationDate, normalizeExpirationDate, truncToMidnight,
    jsMathCeilDiv, hd]
  by_cases hk : k < 7
  · rw [if_pos hk]
    split
    next => rfl
    next h => exfalso; omega
  · rw [if_neg hk]
    split
    next h => exfalso; omega
    next => rfl

/-- A date strictly before today's midnight always fails the expiration
check. -/
theorem validateLicenseExpirationDate_past (nowMs expMs : Int)
    (h : expMs < truncToMidnight nowMs) :
    validateLicenseExpirationDate (some expMs) nowMs =
      some "License expiration date must be at least 7 days in the future" := by
  have hd : msPerDay = 86400000 := rfl
  simp only [truncToMidnight, hd] at h
  simp only [validateLicenseExpirationDate, normalizeExpirationDate, truncToMidnight,
    jsMathCeilDiv, hd]
  split
  next => rfl
  next h2 => exfalso; omega

/-- Claim C3: the expiration validator is boundary-exact at 7 whole days
on midnight-truncated dates: exactly 7 days out passes, exactly 6 days out
fails, any past date fails, and a missing or unparsable date fails as
required. -/
theorem claim_c3 : ∀ nowMs : Int,
    validateLicenseExpirationDate (some (truncToMidnight nowMs + 7 * msPerDay)) nowMs = none
  ∧ validateLicenseExpirationDate (some (truncToMidnight nowMs + 6 * msPerDay)) nowMs
      = some "License expiration date must be at least 7 days in the future"
  ∧ (∀ expMs : Int, expMs < truncToMidnight nowMs →
      validateLicenseExpirationDate (some expMs) nowMs
        = some "License expiration date must be at least 7 days in the future")
  ∧ validateLicenseExpirationDate none nowMs = some "License expiration date is required" := by
  intro nowMs
  refine ⟨?_, ?_, fun expMs h => validateLicenseExpirationDate_past nowMs expMs h, rfl⟩
  · rw [validateLicenseExpirationDate_offset]; norm_num
  · rw [validateLicenseExpirationDate_offset]; norm_num

/-- Witness for C3 at a concrete past date. -/
theorem claim_c3_witness :
    validateLicenseExpirationDate (some (-msPerDay)) 0
      = some "License expiration date must be at least 7 days in the future" :=
  (claim_c3 0).2.2.1 (-msPerDay) (by decide)

/-- The spec's fully valid example input passes the aggregate validator
for every base time. -/
theorem janeDoe_valid (nowMs : Int) :
    validateDriverLicenseInput
      ⟨some ['J','a','n','e',' ','D','o','e'], some ['A','1','2','3','4','5','6','7'],
       some (truncToMidnight nowMs + 30 * msPerDay), some "CA"⟩ nowMs = [] := by
  have hexp : validateLicenseExpirationDate (some (truncToMidnight nowMs + 30 * msPerDay))
      nowMs = none := by
    rw [validateLicenseExpirationDate_offset]; norm_num
  have hname : validateLegalName (some ['J','a','n','e',' ','D','o','e']) = none := by decide
  have hst : validateIssuingState (some "CA") = none := by decide
  have hvalid : isValidIssuingState (some "CA") = true := by decide
  have hparse : parseStateCode "CA" = some USStateCode.CA := by decide
  have hnum : validateLicenseNumber (some ['A','1','2','3','4','5','6','7'])
      (some USStateCode.CA) = none := by decide
  simp [validateDriverLicenseInput, hexp, hname, hst, hvalid, hparse, hnum]

/-- Claim C1: the aggregate validator runs all four field validators
without cross-field short-circuiting and returns a mapping with exactly
the failing fields (each key is present iff its validator failed, and it
carries that validator's message); the spec's fully valid example input
returns the empty mapping. -/
theorem claim_c1 : ∀ (input : DriverLicenseInput) (nowMs : Int),
    findError (validateDriverLicenseInput input nowMs) ErrField.legalName
      = validateLegalName input.legalName
  ∧ findError (validateDriverLicenseInput input nowMs) ErrField.issuingState
      = validateIssuingState input.issuingState
  ∧ findError (validateDriverLicenseInput input nowMs) ErrField.licenseNumber
      = validateLicenseNumber input.licenseNumber
          (if isValidIssuingState input.issuingState then input.issuingState.bind parseStateCode
           else none)
  ∧ findError (validateDriverLicenseInput input nowMs) ErrField.licenseExpirationDate
      = validateLicenseExpirationDate input.licenseExpirationDate nowMs
  ∧ (validateDriverLicenseInput input nowMs = [] ↔
      validateLegalName input.legalName = none
      ∧ validateIssuingState input.issuingState = none
      ∧ validateLicenseNumber input.licenseNumber
          (if isValidIssuingState input.issuingState then input.issuingState.bind parseStateCode
           else none) = none
      ∧ validateLicenseExpirationDate input.licenseExpirationDate nowMs = none)
  ∧ validateDriverLicenseInput
      ⟨some ['J','a','n','e',' ','D','o','e'], some ['A','1','2','3','4','5','6','7'],
       some (truncToMidnight nowMs + 30 * msPerDay), some "CA"⟩ nowMs = [] := by
  intro input nowMs
  refine ⟨?_, ?_, ?_, ?_, ?_, janeDoe_valid nowMs⟩ <;>
  · rcases h1 : validateLegalName input.legalName with _ | m1 <;>
    rcases h2 : validateIssuingState input.issuingState with _ | m2 <;>
    rcases h3 : validateLicenseNumber input.licenseNumber
        (if isValidIssuingState input.issuingState then input.issuingState.bind parseStateCode
         else none) with _ | m3 <;>
    rcases h4 : validateLicenseExpirationDate input.licenseExpirationDate nowMs with _ | m4 <;>
      simp [validateDriverLicenseInput, findError, h1, h2, h3, h4]

/-- The character-class regex demands a leading letter, so passing it
guarantees at least one letter. -/
theorem hasAnyLetter_of_valid {s : List Char} (h : hasValidNameCharacters s = true) :
    hasAnyLetter s = true := by
  cases s with
  | nil => simp [hasValidNameCharacters] at h
  | cons c t =>
      simp only [hasValidNameCharacters, Bool.and_eq_true] at h
      simp [hasAnyLetter, h.1]

/-- Claim C10: the branch of validateLegalName returning the
letter-requirement message is unreachable: no input ever produces it. -/
theorem claim_c10 : ∀ value : Option (List Char),
    (validateLegalName value == some "Legal name must include at least one letter") = false := by
  intro value
  simp only [validateLegalName]
  split
  next => decide
  next h1 =>
    split
    next => decide
    next h2 =>
      split
      next => decide
      next h3 =>
        split
        next h4 =>
          exfalso
          have hC : hasValidNameCharacters (jsTrim (value.getD [])) = true := by
            simpa using h3
          have hD := hasAnyLetter_of_valid hC
          simp [hD] at h4
        next => decide

/-- Spec-side (amended) character-class check for C8: starts with a letter
and every character is a letter, whitespace, hyphen, or apostrophe. -/
def specNameClassOk (s : List Char) : Bool :=
  (match s with | [] => false | c :: _ => alphaC c) &&
  s.all (fun x => alphaC x || isJsWhitespace x || x == Char.ofNat 39 || x == '-')

/-- The source's character-class regex agrees with the amended spec-side
class. -/
theorem hasValidNameCharacters_eq_spec (s : List Char) :
    hasValidNameCharacters s = specNameClassOk s := by
  cases s with
  | nil => rfl
  | cons c t =>
      simp only [hasValidNameCharacters, specNameClassOk, List.all_cons]
      cases h : alphaC c <;> simp [h]

/-- Counterexample to claim C8 as stated: a tab character is neither a
letter, the space character, a hyphen, nor an apostrophe, yet a name
containing one passes validateLegalName, because the source's class uses
the whitespace class rather than the space character. -/
theorem claim_c8_counterexample :
    alphaC '\t' = false ∧ '\t' ≠ ' ' ∧ '\t' ≠ '-' ∧ '\t' ≠ Char.ofNat 39 ∧
    validateLegalName (some ['A', '\t', 'B']) = none := by
  decide

/-- Claim C8 (amended): validateLegalName applies its rules in order with
first failure winning — blank fails as required, shorter than 2 fails as
too short, and a name containing a character outside letters, whitespace
characters, hyphens and apostrophes (or not starting with a letter) fails
the character-class rule; the spec's four examples behave as stated. -/
theorem claim_c8_amended : ∀ value : Option (List Char),
    (jsTrim (value.getD []) = [] → validateLegalName value
        = some "Legal name is required for driver registration")
  ∧ (jsTrim (value.getD []) ≠ [] → (jsTrim (value.getD [])).length < 2 →
      validateLegalName value = some "Legal name must be at least 2 characters long")
  ∧ (2 ≤ (jsTrim (value.getD [])).length → specNameClassOk (jsTrim (value.getD [])) = false →
      validateLegalName value
        = some "Legal name can only include letters, spaces, hyphens, and apostrophes")
  ∧ validateLegalName (some ['M','a','r','y','-','J','a','n','e',' ','O',Char.ofNat 39,
      'B','r','i','e','n']) = none
  ∧ validateLegalName (some ['1','2','3','4','5','6'])
      = some "Legal name can only include letters, spaces, hyphens, and apostrophes"
  ∧ validateLegalName (some ['A']) = some "Legal name must be at least 2 characters long"
  ∧ validateLegalName (some ['M','a','r','y','_','J','a','n','e'])
      = some "Legal name can only include letters, spaces, hyphens, and apostrophes" := by
  intro value
  refine ⟨?_, ?_, ?_, by decide, by decide, by decide, by decide⟩
  · intro h
    simp [validateLegalName, h]
  · intro h1 h2
    simp [validateLegalName, List.isEmpty_iff, h1, h2]
  · intro h1 h2
    have hne : jsTrim (value.getD []) ≠ [] := by
      intro h; rw [h] at h1; simp at h1
    have hlen : ¬ (jsTrim (value.getD [])).length < 2 := by omega
    have hclass : hasValidNameCharacters (jsTrim (value.getD [])) = false := by
      rw [hasValidNameCharacters_eq_spec]; exact h2
    simp [validateLegalName, List.isEmpty_iff, hne, hlen, hclass]

/-- Witness for the amended C8 at the spec's all-digit example. -/
theorem claim_c8_witness :
    validateLegalName (some ['1','2','3','4','5','6'])
      = some "Legal name can only include letters, spaces, hyphens, and apostrophes" :=
  (claim_c8_amended (some ['1','2','3','4','5','6'])).2.2.1 (by decide) (by decide)

/-- Counterexample to claim C4 as stated: a license number with leading
whitespace (non-blank, whitespace anywhere, valid jurisdiction) is
trimmed first, so the whitespace error is not returned — the value is in
fact accepted. -/
theorem claim_c4_counterexample :
    List.any [' ', 'A', '1', '2', '3', '4', '5', '6', '7'] isJsWhitespace = true ∧
    validateLicenseNumber (some [' ', 'A', '1', '2', '3', '4', '5', '6', '7'])
      (some USStateCode.CA) = none := by
  decide

/-- Claim C4 (amended): for every license number whose trimmed value is
non-blank and still contains a whitespace character (interior whitespace —
leading and trailing whitespace is removed before any check), and every
jurisdiction, the validator returns the whitespace error, ahead of the
special-character, format, repeated-sequence and sequential-run checks. -/
theorem claim_c4_amended : ∀ (st : USStateCode) (value : List Char),
    (jsTrim value).isEmpty = false →
    (jsTrim value).any isJsWhitespace = true →
    validateLicenseNumber (some value) (some st)
      = some "License number must not include whitespace" := by
  intro st value h1 h2
  simp [validateLicenseNumber, h1, h2]

/-- Witness for the amended C4 at the spec's interior-space example. -/
theorem claim_c4_witness :
    validateLicenseNumber (some ['1','2','3',' ','4','5','6']) (some USStateCode.CA)
      = some "License number must not include whitespace" :=
  claim_c4_amended USStateCode.CA ['1','2','3',' ','4','5','6'] (by decide) (by decide)

/-- Claim C6: a license number that passes the earlier checks (non-blank,
no whitespace, alphanumeric, format, not a repeated sequence) and is
purely numeric with a strictly ascending or descending consecutive digit
run — or purely alphabetic with a strictly consecutive letter run — fails
with the obvious-sequence error; the non-sequential "1235567" does not
trigger the rule (it is accepted for Alaska). -/
theorem claim_c6 :
  (∀ (st : USStateCode) (value : List Char),
    (jsTrim value).isEmpty = false →
    (jsTrim value).any isJsWhitespace = false →
    reAllOf alnumC (jsTrim value) = true →
    licenseFormatOk (US_STATE_RULES st) (jsTrim value) = true →
    isAllSameCharacter (jsTrim value) = false →
    (reAllOf digitC (jsTrim value) = true ∧ isSequentialDigits (jsTrim value) = true) ∨
      (reAllOf alphaC (jsTrim value) = true ∧ isSequentialLetters (jsTrim value) = true) →
    validateLicenseNumber (some value) (some st)
      = some "License number cannot be an obvious sequence")
  ∧ validateLicenseNumber (some ['7','6','5','4','3','2','1']) (some USStateCode.AK)
      = some "License number cannot be an obvious sequence"
  ∧ isSequentialLetters ['A','B','C','D','E','F','G'] = true
  ∧ validateLicenseNumber (some ['1','2','3','5','5','6','7']) (some USStateCode.AK)
      = none := by
  refine ⟨?_, by decide, by decide, by decide⟩
  intro st value h1 h2 h3 h4 h5 h6
  rcases h6 with ⟨ha, hb⟩ | ⟨ha, hb⟩ <;>
    simp [validateLicenseNumber, h1, h2, h3, h4, h5, ha, hb]

/-- Witness for C6 at the ascending run "1234567" in Alaska. -/
theorem claim_c6_witness :
    validateLicenseNumber (some ['1','2','3','4','5','6','7']) (some USStateCode.AK)
      = some "License number cannot be an obvious sequence" :=
  claim_c6.1 USStateCode.AK ['1','2','3','4','5','6','7'] (by decide) (by decide) (by decide)
    (by decide) (by decide) (Or.inl ⟨by decide, by decide⟩)

/-- Claim C7: for every jurisdiction, a license number that passes the
whitespace, special-character and format checks and has all characters
identical fails with the repeated-sequence error; and the repeated check
runs only after the format check — a number failing the format check gets
the format error instead, whatever its characters. -/
theorem claim_c7 :
  (∀ (st : USStateCode) (value : List Char),
    (jsTrim value).isEmpty = false →
    (jsTrim value).any isJsWhitespace = false →
    reAllOf alnumC (jsTrim value) = true →
    licenseFormatOk (US_STATE_RULES st) (jsTrim value) = true →
    isAllSameCharacter (jsTrim value) = true →
    validateLicenseNumber (some value) (some st)
      = some "License number cannot be a repeated sequence")
  ∧ (∀ (st : USStateCode) (value : List Char),
    (jsTrim value).isEmpty = false →
    (jsTrim value).any isJsWhitespace = false →
    reAllOf alnumC (jsTrim value) = true →
    licenseFormatOk (US_STATE_RULES st) (jsTrim value) = false →
    validateLicenseNumber (some value) (some st)
      = some ("License number does not match the required format for " ++ stateKey st)) := by
  constructor
  · intro st value h1 h2 h3 h4 h5
    simp [validateLicenseNumber, h1, h2, h3, h4, h5]
  · intro st value h1 h2 h3 h4
    simp [validateLicenseNumber, h1, h2, h3, h4]

/-- Witness for C7 at "0000000" in Alaska. -/
theorem claim_c7_witness :
    validateLicenseNumber (some ['0','0','0','0','0','0','0']) (some USStateCode.AK)
      = some "License number cannot be a repeated sequence" :=
  claim_c7.1 USStateCode.AK ['0','0','0','0','0','0','0'] (by decide) (by decide) (by decide)
    (by decide) (by decide)

/-- An alphanumeric character is not whitespace. -/
theorem alnum_not_ws {c : Char} (h : alnumC c = true) : isJsWhitespace c = false := by
  simp only [alnumC, alphaC, digitC, Bool.or_eq_true, decide_eq_true_eq] at h
  simp only [isJsWhitespace, decide_eq_false_iff_not]
  omega

/-- A one-character value is trivially an all-same-character value. -/
theorem isAllSameCharacter_single (c : Char) : isAllSameCharacter [c] = true := by
  simp [isAllSameCharacter]

/-- Trimming a one-character value keeps it unless it is whitespace. -/
theorem jsTrim_single (c : Char) :
    jsTrim [c] = if isJsWhitespace c then [] else [c] := by
  cases h : isJsWhitespace c <;> simp [jsTrim, List.dropWhile, h]

/-- Claim C9: each of the six jurisdictions whose rule table admits
single-character numbers (AL, AK, DE, LA, NC, OR) has a pattern with
minimum length 1, and every one-character alphanumeric input matching one
of its patterns is rejected as a repeated sequence; moreover no
one-character license number is ever accepted for any jurisdiction. -/
theorem claim_c9 :
  (∀ st ∈ [USStateCode.AL, USStateCode.AK, USStateCode.DE, USStateCode.LA,
      USStateCode.NC, USStateCode.OR],
    ((US_STATE_RULES st).patterns.any (fun p => p.minLength == 1)) = true
    ∧ ∀ c : Char, alnumC c = true → licenseFormatOk (US_STATE_RULES st) [c] = true →
        validateLicenseNumber (some [c]) (some st)
          = some "License number cannot be a repeated sequence")
  ∧ (∀ (st : USStateCode) (c : Char),
      (validateLicenseNumber (some [c]) (some st)).isSome = true) := by
  constructor
  · intro st hst
    constructor
    · fin_cases hst <;> decide
    · intro c hc hfmt
      have hws : isJsWhitespace c = false := alnum_not_ws hc
      have ht : jsTrim [c] = [c] := by rw [jsTrim_single, hws]; rfl
      simp [validateLicenseNumber, ht, hws, hc, hfmt, isAllSameCharacter_single, reAllOf]
  · intro st c
    cases hws : isJsWhitespace c
    · have ht : jsTrim [c] = [c] := by rw [jsTrim_single, hws]; rfl
      cases halnum : reAllOf alnumC [c] <;>
        cases hfmt : licenseFormatOk (US_STATE_RULES st) [c] <;>
          simp [validateLicenseNumber, ht, hws, halnum, hfmt, isAllSameCharacter_single]
    · have ht : jsTrim [c] = [] := by rw [jsTrim_single, hws]; rfl
      simp [validateLicenseNumber, ht]

/-- Witness for C9 at the digit 5 in Oregon. -/
theorem claim_c9_witness :
    validateLicenseNumber (some ['5']) (some USStateCode.OR)
      = some "License number cannot be a repeated sequence" :=
  (claim_c9.1 USStateCode.OR (by decide)).2 '5' (by decide) (by decide)

/-- An issuing-state validation failure implies the membership test is
false. -/
theorem isValid_false_of_stateError {v : Option String} {e : String}
    (h : validateIssuingState v = some e) : isValidIssuingState v = false := by
  cases v with
  | none => rfl
  | some s =>
      cases hb : isValidIssuingState (some s)
      · rfl
      · exfalso
        have hs : ¬ s = "" := by
          intro hs
          rw [hs] at hb
          simp [isValidIssuingState] at hb
        simp only [validateIssuingState] at h
        rw [if_neg hs, hb] at h
        simp at h

/-- With no resolved jurisdiction, a non-blank license number fails at
step 2 with the issuing-state-required message. -/
theorem licenseNumber_noState {value : Option (List Char)}
    (h : (jsTrim (value.getD [])).isEmpty = false) :
    validateLicenseNumber value none
      = some "Issuing state is required to validate license number" := by
  simp [validateLicenseNumber, h]

/-- Counterexample to claim C5 as stated: with an invalid issuing state
but a blank license number, the license-number validator fails at step 1
(the required-message), not at step 2 with the issuing-state-required
message the claim asserts. -/
theorem claim_c5_counterexample :
    findError (validateDriverLicenseInput ⟨some ['J','o','e'], some [], none, some "ZZ"⟩ 0)
        ErrField.licenseNumber = some "License number is required for driver registration"
    ∧ "License number is required for driver registration"
        ≠ "Issuing state is required to validate license number" := by
  decide

/-- Claim C5 (amended): for every input whose issuing state fails the
jurisdiction-membership check and whose license number is non-blank after
trimming, the aggregate validator resolves no jurisdiction, the
license-number validator necessarily fails at step 2, and the mapping
carries two distinct errors, one under the issuingState key and one under
the licenseNumber key. -/
theorem claim_c5_amended : ∀ (input : DriverLicenseInput) (nowMs : Int) (e : String),
    validateIssuingState input.issuingState = some e →
    (jsTrim (input.licenseNumber.getD [])).isEmpty = false →
    findError (validateDriverLicenseInput input nowMs) ErrField.issuingState = some e
    ∧ findError (validateDriverLicenseInput input nowMs) ErrField.licenseNumber
        = some "Issuing state is required to validate license number"
    ∧ e ≠ "Issuing state is required to validate license number" := by
  intro input nowMs e hstate hnum
  have hvalid := isValid_false_of_stateError hstate
  have hlicense : validateLicenseNumber input.licenseNumber
      (if isValidIssuingState input.issuingState then input.issuingState.bind parseStateCode
       else none) = some "Issuing state is required to validate license number" := by
    rw [hvalid]
    simpa using licenseNumber_noState hnum
  refine ⟨?_, ?_, ?_⟩
  · rcases h1 : validateLegalName input.legalName with _ | m1 <;>
      simp [validateDriverLicenseInput, findError, h1, hstate]
  · rcases h1 : validateLegalName input.legalName with _ | m1 <;>
      simp [validateDriverLicenseInput, findError, h1, hstate, hlicense]
  · have he : e = "Issuing state is required for driver registration"
        ∨ e = "Issuing state must be a valid U.S. state or DC" := by
      cases v : input.issuingState with
      | none =>
          rw [v] at hstate
          simp only [validateIssuingState, Option.some.injEq] at hstate
          exact Or.inl hstate.symm
      | some s =>
          rw [v] at hstate
          simp only [validateIssuingState] at hstate
          by_cases hs : s = ""
          · rw [if_pos hs] at hstate
            exact Or.inl (Option.some.inj hstate).symm
          · rw [if_neg hs] at hstate
            by_cases hv : (!isValidIssuingState (some s)) = true
            · rw [if_pos hv] at hstate
              exact Or.inr (Option.some.inj hstate).symm
            · rw [if_neg hv] at hstate
              exact absurd hstate (by simp)
    rcases he with rfl | rfl <;> decide

/-- Witness for the amended C5 at a concrete invalid state "ZZ". -/
theorem claim_c5_witness :
    findError (validateDriverLicenseInput ⟨some ['J','o','e'], some ['1','2','3'], none,
        some "ZZ"⟩ 0) ErrField.licenseNumber
      = some "Issuing state is required to validate license number" :=
  (claim_c5_amended ⟨some ['J','o','e'], some ['1','2','3'], none, some "ZZ"⟩ 0
    "Issuing state must be a valid U.S. state or DC" (by decide) (by decide)).2.1

/-- Witness for C1 at a concrete all-missing input. -/
theorem claim_c1_witness :
    findError (validateDriverLicenseInput ⟨none, none, none, none⟩ 0) ErrField.legalName
      = validateLegalName none :=
  (claim_c1 ⟨none, none, none, none⟩ 0).1
